import Mathlib

/-!
Verification development for the mlat-client repository.

Shallow embedding of the parts of the code the claims are about:
- mlat/client/synthetic_es.py : CPR_NL lookup and encode_velocity
- mlat/client/jsonclient.py   : UdpServerConnection (UDP datagram building)
- mlat/client/coordinator.py  : per-message handlers and aircraft reporting
- mlat/client/receiver.py     : input format autodetection (SBS guard)
- mlat-client.py              : write_messages outbound queue flush

Python arbitrary-precision ints are modelled as Nat/Int; Python floats that
hold exact decimal constants and times are modelled as rationals; Python
None / exceptions are modelled with Option.
-/

namespace MlatClient

/-! ## synthetic_es.py -/

/-- The nl_table lookup table from synthetic_es.py: pairs of (latitude band
edge, NL value), in source order (ascending latitude). The decimal float
literals of the source are represented exactly as rationals. -/
def nl_table : List (ℚ × ℕ) :=
  [ (10.47047130, 59), (14.82817437, 58), (18.18626357, 57), (21.02939493, 56),
    (23.54504487, 55), (25.82924707, 54), (27.93898710, 53), (29.91135686, 52),
    (31.77209708, 51), (33.53993436, 50), (35.22899598, 49), (36.85025108, 48),
    (38.41241892, 47), (39.92256684, 46), (41.38651832, 45), (42.80914012, 44),
    (44.19454951, 43), (45.54626723, 42), (46.86733252, 41), (48.16039128, 40),
    (49.42776439, 39), (50.67150166, 38), (51.89342469, 37), (53.09516153, 36),
    (54.27817472, 35), (55.44378444, 34), (56.59318756, 33), (57.72747354, 32),
    (58.84763776, 31), (59.95459277, 30), (61.04917774, 29), (62.13216659, 28),
    (63.20427479, 27), (64.26616523, 26), (65.31845310, 25), (66.36171008, 24),
    (67.39646774, 23), (68.42322022, 22), (69.44242631, 21), (70.45451075, 20),
    (71.45986473, 19), (72.45884545, 18), (73.45177442, 17), (74.43893416, 16),
    (75.42056257, 15), (76.39684391, 14), (77.36789461, 13), (78.33374083, 12),
    (79.29428225, 11), (80.24923213, 10), (81.19801349, 9), (82.13956981, 8),
    (83.07199445, 7), (83.99173563, 6), (84.89166191, 5), (85.75541621, 4),
    (86.53536998, 3), (87.00000000, 2), (90.00000000, 1) ]

/-- nl_lats = [x[0] for x in nl_table] -/
def nl_lats : List ℚ := nl_table.map Prod.fst

/-- nl_vals = [x[1] for x in nl_table] -/
def nl_vals : List ℕ := nl_table.map Prod.snd

/-- Python bisect.bisect_left on a list sorted ascending: the index of the
first element that is not smaller than x (equivalently, for a sorted list,
the number of leading elements strictly below x). -/
def bisect_left (xs : List ℚ) (x : ℚ) : ℕ :=
  (xs.takeWhile (fun a => a < x)).length

/-- CPR_NL from synthetic_es.py. Python list indexing raises IndexError when
out of range, modelled by Option (reachable only for latitudes above 90). -/
def CPR_NL (lat : ℚ) : Option ℕ :=
  let lat := if lat < 0 then -lat else lat
  nl_vals.get? (bisect_left nl_lats lat)

/-- Python int(): truncation toward zero. -/
def pyInt (q : ℚ) : ℤ :=
  if q < 0 then -(⌊-q⌋) else ⌊q⌋

/-- encode_velocity from synthetic_es.py. The groundspeed argument is a
Python number or None; the magnitude after the sign strip is nonnegative, so
the encoded result is a natural number (Python | on nonnegative ints is
Nat.lor). 1.5 is the exact float 3/2. -/
def encode_velocity (kts : Option ℚ) (supersonic : Bool) : ℕ :=
  match kts with
  | none => 0
  | some k =>
    let signbit : ℕ := if k < 0 then 0x400 else 0
    let mag : ℚ := if k < 0 then 0 - k else k
    let mag : ℚ := if supersonic then mag / 4 else mag
    let n : ℕ := (pyInt (mag + 1.5)).toNat
    if n > 1023 then 1023 ||| signbit else n ||| signbit

/-! ## receiver.py: detect_data_format, the SBS branch

The source line is

  elif data[i:i+4] == b'\x10\0x03\x10\0x02':

The byte-string literal contains the malformed escapes \0x03 and \0x02: it
denotes the TEN bytes 10 00 78 30 33 10 00 78 30 32 ('\x10', '\0', 'x', '0',
'3', '\x10', '\0', 'x', '0', '2'), while data[i:i+4] is a slice of at most
four bytes, so the comparison is always false. -/

/-- The bytes Python actually assigns to the literal in the SBS branch of
detect_data_format. -/
def sbs_literal : List ℕ :=
  [0x10, 0x00, 0x78, 0x30, 0x33, 0x10, 0x00, 0x78, 0x30, 0x32]

/-- The SBS branch guard of detect_data_format: data[i:i+4] == the literal.
Python slicing data[i:i+4] is drop i then take 4. -/
def sbs_detect_check (data : List ℕ) (i : ℕ) : Bool :=
  (data.drop i).take 4 == sbs_literal

/-! ## mlat-client.py: write_messages queue flush

Each queued message is a dict carrying its production time under the key
'@'; at each write tick the queue is drained, messages younger than 1.0 s
are serialized and sent in order, the rest are counted in st_msg_dropped. -/

/-- One message of the outbound queue: its production time (msg['@'], a
seconds value) and its remaining content, held abstract. -/
structure QueuedMsg where
  t : ℚ
  payload : String
deriving DecidableEq

/-- The flush step inside write_messages (mlat-client.py): the loop
    for msg in msgs:
        if (now - msg['@']) < 1.0: ... to_send.append(line)
        else: self.st_msg_dropped += 1
returning the messages to send (in order) and the number dropped. -/
def flush_queue (now : ℚ) (msgs : List QueuedMsg) : List QueuedMsg × ℕ :=
  msgs.foldl
    (fun acc m => if now - m.t < 1 then (acc.1 ++ [m], acc.2) else (acc.1, acc.2 + 1))
    ([], 0)

/-! ## coordinator.py: data model -/

/-- A decoded Mode S message as the coordinator sees it (attributes of the
decoder message objects that the handlers read). Timestamps are receiver
clock ticks (Python int). -/
structure ModesMessage where
  df : ℕ
  address : ℕ
  timestamp : ℕ
  even_cpr : Bool
  odd_cpr : Bool
  valid : Bool
  nuc : ℕ
  altitude : Option ℤ
deriving DecidableEq

/-- The Aircraft record of coordinator.py (all fields of __init__).
Monotonic times are seconds as rationals; the zero initial times model the
Python literal 0. -/
structure Aircraft where
  icao : ℕ
  messages : ℕ
  last_message_time : ℚ
  last_even_time : ℚ
  last_odd_time : ℚ
  adsb_good : Bool
  even_message : Option ModesMessage
  odd_message : Option ModesMessage
  reported : Bool
  requested : Bool
  measurement_start : Option ℚ
  rate_measurement_start : ℚ
  recent_adsb_positions : ℕ
deriving DecidableEq

/-- Aircraft.__init__(icao). -/
def Aircraft.init (icao : ℕ) : Aircraft :=
  { icao := icao, messages := 0, last_message_time := 0, last_even_time := 0,
    last_odd_time := 0, adsb_good := false, even_message := none,
    odd_message := none, reported := false, requested := true,
    measurement_start := none, rate_measurement_start := 0,
    recent_adsb_positions := 0 }

/-- An outbound call made on the server connection object by the
coordinator. -/
inductive ServerCall where
  | send_mlat (m : ModesMessage)
  | send_sync (em om : ModesMessage)
  | send_split_sync (m : ModesMessage)
  | send_seen (acs : Finset ℕ)
  | send_lost (acs : Finset ℕ)
  | position_update (lat lon alt : ℚ) (altref : String)
deriving DecidableEq

/-- Coordinator.position_expiry_age (seconds). -/
def position_expiry_age : ℚ := 30

/-- Coordinator.received_radarcape_position_event. The guard in the source
is

  if lat >= -90 and lat <= 90 and lon >= -180 and lon <= -180:

(lon is compared against -180 twice). When the guard passes, the source
calls self.server.send_position_update(lat, lon, eventdata['lon'],
eventdata['alt'], 'egm96_meters') — five positional arguments to the
four-parameter method send_position_update(self, lat, lon, alt, altref),
which raises TypeError: modelled as none. When it fails, nothing is sent. -/
def received_radarcape_position_event (lat lon alt : ℚ) : Option (List ServerCall) :=
  if lat ≥ -90 ∧ lat ≤ 90 ∧ lon ≥ -180 ∧ lon ≤ -180 then
    none
  else
    some []

/-- Result of one coordinator message handler: the registry entry for the
message address afterwards (none if there was none and none was created),
and the server calls made, in order. -/
structure HandlerResult where
  aircraft : Option Aircraft
  calls : List ServerCall
deriving DecidableEq

/-- Coordinator.received_df_misc (df 0/4/5/16/20/21). ac? is
self.aircraft.get(message.address). -/
def received_df_misc (ac? : Option Aircraft) (message : ModesMessage) (now : ℚ) :
    HandlerResult :=
  match ac? with
  | none => ⟨none, []⟩
  | some ac0 =>
    let ac := { ac0 with messages := ac0.messages + 1, last_message_time := now }
    if ac.messages < 10 then ⟨some ac, []⟩
    else if ¬ac.requested then ⟨some ac, []⟩
    else if ac.adsb_good then ⟨some ac, []⟩
    else ⟨some ac, [ServerCall.send_mlat message]⟩

/-- Coordinator.received_df11. On first sight the aircraft is created with
requested = (address in requested_traffic) and one message counted. -/
def received_df11 (requested_traffic : List ℕ) (ac? : Option Aircraft)
    (message : ModesMessage) (now : ℚ) : HandlerResult :=
  match ac? with
  | none =>
    let ac := { Aircraft.init message.address with
                  requested := decide (message.address ∈ requested_traffic),
                  messages := 1, last_message_time := now,
                  rate_measurement_start := now }
    ⟨some ac, []⟩
  | some ac0 =>
    let ac := { ac0 with messages := ac0.messages + 1, last_message_time := now }
    if ac.messages < 10 then ⟨some ac, []⟩
    else if ¬ac.requested then ⟨some ac, []⟩
    else if ac.adsb_good then ⟨some ac, []⟩
    else ⟨some ac, [ServerCall.send_mlat message]⟩

/-! Coordinator.received_df17, transcribed in four stages (together they
cover the method body top to bottom): df17_track is the message counter
update, df17_store is the even_message/odd_message update, df17_send is the
tail from the both-present check to the sync send, and received_df17 glues
them with the early returns in source order. -/

/-- received_df17: ac.messages += 1; ac.last_message_time = now. -/
def df17_track (ac0 : Aircraft) (now : ℚ) : Aircraft :=
  { ac0 with messages := ac0.messages + 1, last_message_time := now }

/-- received_df17: if message.even_cpr: ac.even_message = message
else: ac.odd_message = message. -/
def df17_store (ac1 : Aircraft) (message : ModesMessage) : Aircraft :=
  if message.even_cpr then { ac1 with even_message := some message }
  else { ac1 with odd_message := some message }

/-- received_df17 from the both-present check onward: the timestamp
spacing, altitude and nuc guards, then the recent_adsb_positions,
last_even_time/last_odd_time and adsb_good updates, then the requested
guard and the split_sync choice. -/
def df17_send (split_sync : Bool) (freq : ℚ) (ac2 : Aircraft)
    (message : ModesMessage) (now : ℚ) : HandlerResult :=
  match ac2.even_message, ac2.odd_message with
  | some em, some om =>
    if |(em.timestamp : ℚ) - (om.timestamp : ℚ)| > 5 * freq then ⟨some ac2, []⟩
    else if message.altitude = none then ⟨some ac2, []⟩
    else if message.nuc < 6 then ⟨some ac2, []⟩
    else
      let ac3 := { ac2 with recent_adsb_positions := ac2.recent_adsb_positions + 1 }
      let ac4 := if message.even_cpr then { ac3 with last_even_time := now }
                 else { ac3 with last_odd_time := now }
      let good := decide (now - ac4.last_even_time < position_expiry_age) &&
        decide (now - ac4.last_odd_time < position_expiry_age)
      let ac5 := { ac4 with adsb_good := good }
      if ¬ac5.requested then ⟨some ac5, []⟩
      else if split_sync then ⟨some ac5, [ServerCall.send_split_sync message]⟩
      else ⟨some ac5, [ServerCall.send_sync em om]⟩
  | _, _ => ⟨some ac2, []⟩

/-- Coordinator.received_df17. split_sync says whether the server handshake
negotiated split sync (self.server.send_split_sync is set); freq is
self.freq in ticks per second. -/
def received_df17 (split_sync : Bool) (freq : ℚ) (requested_traffic : List ℕ)
    (ac? : Option Aircraft) (message : ModesMessage) (now : ℚ) : HandlerResult :=
  match ac? with
  | none =>
    let ac := { Aircraft.init message.address with
                  requested := decide (message.address ∈ requested_traffic),
                  messages := 1, last_message_time := now,
                  rate_measurement_start := now }
    ⟨some ac, []⟩
  | some ac0 =>
    let ac1 := df17_track ac0 now
    if ac1.messages < 10 then ⟨some ac1, []⟩
    else if ¬message.even_cpr ∧ ¬message.odd_cpr then ⟨some ac1, []⟩
    else if ¬message.valid then ⟨some ac1, []⟩
    else df17_send split_sync freq (df17_store ac1 message) message now

/-- The df_handlers dispatch of Coordinator.__init__, restricted to the
numeric downlink formats (the event and Mode A/C handlers are modelled
separately): df 0/4/5/16/20/21 go to received_df_misc, 11 to received_df11,
17 to received_df17; any other df has no handler. -/
def handle_df (split_sync : Bool) (freq : ℚ) (requested_traffic : List ℕ)
    (ac? : Option Aircraft) (message : ModesMessage) (now : ℚ) :
    Option HandlerResult :=
  if message.df = 0 ∨ message.df = 4 ∨ message.df = 5 ∨ message.df = 16 ∨
     message.df = 20 ∨ message.df = 21 then
    some (received_df_misc ac? message now)
  else if message.df = 11 then
    some (received_df11 requested_traffic ac? message now)
  else if message.df = 17 then
    some (received_df17 split_sync freq requested_traffic ac? message now)
  else
    none

/-- Coordinator.send_aircraft_report: aircraft is self.aircraft.values(),
reported is self.reported. Returns the new reported set and the calls
made. -/
def send_aircraft_report (aircraft : List Aircraft) (reported : Finset ℕ) :
    Finset ℕ × List ServerCall :=
  let all_aircraft := ((aircraft.filter (fun a => 1 < a.messages)).map Aircraft.icao).toFinset
  let seen_ac := all_aircraft \ reported
  let lost_ac := reported \ all_aircraft
  let calls :=
    (if seen_ac ≠ ∅ then [ServerCall.send_seen seen_ac] else []) ++
    (if lost_ac ≠ ∅ then [ServerCall.send_lost lost_ac] else [])
  (all_aircraft, calls)

/-- The union of all address sets announced as seen in a call list. -/
def seen_set (calls : List ServerCall) : Finset ℕ :=
  calls.foldl (fun acc c => match c with
    | ServerCall.send_seen s => acc ∪ s
    | _ => acc) ∅

/-- The union of all address sets announced as lost in a call list. -/
def lost_set (calls : List ServerCall) : Finset ℕ :=
  calls.foldl (fun acc c => match c with
    | ServerCall.send_lost s => acc ∪ s
    | _ => acc) ∅


/-! ## jsonclient.py: UdpServerConnection

The UDP datagram buffer is modelled as the list of packed structs written
into it (header first, then submessages) together with the used byte
count. Python struct sizes: STRUCT_HEADER ">IHQ" is 14 bytes, STRUCT_SYNC
">Bii14s14s" 37, STRUCT_SSYNC ">Bi14s" 19, STRUCT_MLAT_SHORT ">Bi7s" 12,
STRUCT_MLAT_LONG ">Bi14s" 19, STRUCT_REBASE ">BQ" 9, STRUCT_ABS_SYNC
">BQQ14s14s" 45. -/

/-- A message as sent over the UDP transport: its receiver-clock timestamp
(Python int) and its byte length (len(message): 2, 7 or 14; send_mlat
branches on length 7). -/
structure UdpMessage where
  timestamp : ℕ
  length : ℕ
deriving DecidableEq

/-- One packed struct of a UDP datagram: the datagram header or one of the
submessage layouts of jsonclient.py. The delta fields are the i32 values
packed by the corresponding structs. -/
inductive Submessage where
  | header (key seq base : ℕ)
  | rebase (base : ℕ)
  | sync (edelta odelta : ℤ) (em om : UdpMessage)
  | ssync (delta : ℤ) (m : UdpMessage)
  | mlat_short (delta : ℤ) (m : UdpMessage)
  | mlat_long (delta : ℤ) (m : UdpMessage)
  | abs_sync (et ot : ℕ) (em om : UdpMessage)
deriving DecidableEq

/-- STRUCT_HEADER.size. -/
def STRUCT_HEADER_size : ℕ := 14

/-- STRUCT_SYNC.size. -/
def STRUCT_SYNC_size : ℕ := 37

/-- STRUCT_SSYNC.size. -/
def STRUCT_SSYNC_size : ℕ := 19

/-- STRUCT_MLAT_SHORT.size. -/
def STRUCT_MLAT_SHORT_size : ℕ := 12

/-- STRUCT_MLAT_LONG.size. -/
def STRUCT_MLAT_LONG_size : ℕ := 19

/-- STRUCT_REBASE.size. -/
def STRUCT_REBASE_size : ℕ := 9

/-- STRUCT_ABS_SYNC.size. -/
def STRUCT_ABS_SYNC_size : ℕ := 45

/-- UdpServerConnection state: key, base_timestamp, the open datagram
buffer (as packed structs) with its used byte count, the sequence counter,
and the datagrams handed to the socket so far (sent, newest last). -/
structure UdpConn where
  key : ℕ
  base_timestamp : Option ℕ
  buf : List Submessage
  used : ℕ
  seq : ℕ
  sent : List (List Submessage)
deriving DecidableEq

/-- UdpServerConnection.__init__: empty buffer, seq 0, no base. -/
def UdpConn.init (key : ℕ) : UdpConn :=
  { key := key, base_timestamp := none, buf := [], used := 0, seq := 0, sent := [] }

/-- UdpServerConnection.prepare_header: set base_timestamp and pack the
key/seq/base header at the start of the buffer. -/
def UdpConn.prepare_header (timestamp : ℕ) (st : UdpConn) : UdpConn :=
  { st with base_timestamp := some timestamp,
            buf := st.buf ++ [Submessage.header st.key st.seq timestamp],
            used := st.used + STRUCT_HEADER_size }

/-- UdpServerConnection.rebase: set base_timestamp and pack a REBASE
submessage carrying it. -/
def UdpConn.rebase (timestamp : ℕ) (st : UdpConn) : UdpConn :=
  { st with base_timestamp := some timestamp,
            buf := st.buf ++ [Submessage.rebase timestamp],
            used := st.used + STRUCT_REBASE_size }

/-- UdpServerConnection.flush. sock_ok is whether the socket send
succeeded; the source swallows socket.error (try/except: pass), so the
state transition is the same either way, and the buffer contents count as
an emitted datagram (the bytes were handed to the socket). Python does not
clear the buffer bytes, it resets used to 0 and overwrites; buf here is
the valid region, so it resets to []. -/
def UdpConn.flush (_sock_ok : Bool) (st : UdpConn) : UdpConn :=
  if st.used = 0 then st
  else
    { st with used := 0, base_timestamp := none, buf := [],
              seq := (st.seq + 1) % 65536,
              sent := st.sent ++ [st.buf] }

/-- The tail of send_mlat once the delta is fixed: pack MLAT_SHORT (length
7) or MLAT_LONG, then flush past the MTU check (used > 1400). -/
def UdpConn.mlat_pack (sock_ok : Bool) (message : UdpMessage) (delta : ℤ)
    (st : UdpConn) : UdpConn :=
  let st2 : UdpConn :=
    if message.length = 7 then
      { st with buf := st.buf ++ [Submessage.mlat_short delta message],
                used := st.used + STRUCT_MLAT_SHORT_size }
    else
      { st with buf := st.buf ++ [Submessage.mlat_long delta message],
                used := st.used + STRUCT_MLAT_LONG_size }
  if st2.used > 1400 then st2.flush sock_ok else st2

/-- UdpServerConnection.send_mlat. none models the TypeError Python would
raise if base_timestamp were None with a non-empty buffer (unreachable
from a fresh connection). The delta reset to 0 after rebase is the
source's delta = 0. -/
def UdpConn.send_mlat (sock_ok : Bool) (message : UdpMessage) (st : UdpConn) :
    Option UdpConn :=
  let st := if st.used = 0 then st.prepare_header message.timestamp else st
  match st.base_timestamp with
  | none => none
  | some base =>
    let delta : ℤ := (message.timestamp : ℤ) - (base : ℤ)
    if |delta| > 0x7FFFFFF0 then
      some ((st.rebase message.timestamp).mlat_pack sock_ok message 0)
    else
      some (st.mlat_pack sock_ok message delta)

/-- The tail of send_split_sync once the delta is fixed: pack SSYNC, then
the MTU check. -/
def UdpConn.ssync_pack (sock_ok : Bool) (m : UdpMessage) (delta : ℤ)
    (st : UdpConn) : UdpConn :=
  let st2 : UdpConn :=
    { st with buf := st.buf ++ [Submessage.ssync delta m],
              used := st.used + STRUCT_SSYNC_size }
  if st2.used > 1400 then st2.flush sock_ok else st2

/-- UdpServerConnection.send_split_sync. -/
def UdpConn.send_split_sync (sock_ok : Bool) (m : UdpMessage) (st : UdpConn) :
    Option UdpConn :=
  let st := if st.used = 0 then st.prepare_header m.timestamp else st
  match st.base_timestamp with
  | none => none
  | some base =>
    let delta : ℤ := (m.timestamp : ℤ) - (base : ℤ)
    if |delta| > 0x7FFFFFF0 then
      some ((st.rebase m.timestamp).ssync_pack sock_ok m 0)
    else
      some (st.ssync_pack sock_ok m delta)

/-- The tail of send_sync on the delta path: pack SYNC with both deltas,
then the MTU check. -/
def UdpConn.sync_pack (sock_ok : Bool) (em om : UdpMessage) (edelta odelta : ℤ)
    (st : UdpConn) : UdpConn :=
  let st2 : UdpConn :=
    { st with buf := st.buf ++ [Submessage.sync edelta odelta em om],
              used := st.used + STRUCT_SYNC_size }
  if st2.used > 1400 then st2.flush sock_ok else st2

/-- UdpServerConnection.send_sync. Python computes the header / rebase
base as int((em.timestamp + om.timestamp) / 2): float division then
truncation, which equals floor division for timestamps below 2^52,
modelled by Nat division. After a rebase the source recomputes the deltas
against the new base_timestamp, which is that midpoint. -/
def UdpConn.send_sync (sock_ok : Bool) (em om : UdpMessage) (st : UdpConn) :
    Option UdpConn :=
  let st := if st.used = 0 then st.prepare_header ((em.timestamp + om.timestamp) / 2)
            else st
  if |(em.timestamp : ℤ) - (om.timestamp : ℤ)| > 0xFFFFFFF0 then
    let st2 : UdpConn := { st with
      buf := st.buf ++ [Submessage.abs_sync em.timestamp om.timestamp em om],
      used := st.used + STRUCT_ABS_SYNC_size }
    some (if st2.used > 1400 then st2.flush sock_ok else st2)
  else
    match st.base_timestamp with
    | none => none
    | some base =>
      let edelta : ℤ := (em.timestamp : ℤ) - (base : ℤ)
      let odelta : ℤ := (om.timestamp : ℤ) - (base : ℤ)
      if |edelta| > 0x7FFFFFF0 ∨ |odelta| > 0x7FFFFFF0 then
        some ((st.rebase ((em.timestamp + om.timestamp) / 2)).sync_pack sock_ok em om
          ((em.timestamp : ℤ) - (((em.timestamp + om.timestamp) / 2 : ℕ) : ℤ))
          ((om.timestamp : ℤ) - (((em.timestamp + om.timestamp) / 2 : ℕ) : ℤ)))
      else
        some (st.sync_pack sock_ok em om edelta odelta)

/-- One call on the UDP connection: the three send entry points called by
the coordinator and the flush called by the heartbeat, each with the
socket outcome of any send it triggers. -/
inductive UdpOp where
  | mlat (sock_ok : Bool) (m : UdpMessage)
  | sync (sock_ok : Bool) (em om : UdpMessage)
  | ssync (sock_ok : Bool) (m : UdpMessage)
  | flush (sock_ok : Bool)
deriving DecidableEq

/-- Dispatch one UdpOp. -/
def UdpConn.step (st : UdpConn) : UdpOp → Option UdpConn
  | UdpOp.mlat ok m => st.send_mlat ok m
  | UdpOp.sync ok em om => st.send_sync ok em om
  | UdpOp.ssync ok m => st.send_split_sync ok m
  | UdpOp.flush ok => some (st.flush ok)

/-- Run a sequence of calls from a given state. -/
def UdpConn.runAux (st : UdpConn) : List UdpOp → Option UdpConn
  | [] => some st
  | op :: ops =>
    match st.step op with
    | none => none
    | some st2 => st2.runAux ops

/-- Run a sequence of calls on a fresh connection with the given key. -/
def run (key : ℕ) (ops : List UdpOp) : Option UdpConn :=
  (UdpConn.init key).runAux ops

/-- All submessages of the connection in production order: the emitted
datagrams then the open buffer. -/
def UdpConn.stream (st : UdpConn) : List Submessage :=
  st.sent.flatten ++ st.buf

/-- The delta bounds each submessage kind actually satisfies: 0x7FFFFFF0
for MLAT_SHORT / MLAT_LONG / SSYNC, 0x7FFFFFF8 for the two SYNC deltas
(a midpoint rebase can leave half of the 0xFFFFFFF0 spacing on each
side); headers, REBASE and ABS_SYNC carry no delta. -/
def delta_ok : Submessage → Bool
  | Submessage.sync e o _ _ => decide (|e| ≤ 0x7FFFFFF8 ∧ |o| ≤ 0x7FFFFFF8)
  | Submessage.ssync d _ => decide (|d| ≤ 0x7FFFFFF0)
  | Submessage.mlat_short d _ => decide (|d| ≤ 0x7FFFFFF0)
  | Submessage.mlat_long d _ => decide (|d| ≤ 0x7FFFFFF0)
  | _ => true

/-- Every submessage of every emitted datagram and of the open buffer
satisfies its delta bound. -/
def conn_ok (st : UdpConn) : Bool :=
  st.sent.all (fun d => d.all delta_ok) && st.buf.all delta_ok

/-- Structural invariant of the connection: the key is constant, seq
counts emitted datagrams mod 2^16, the i-th emitted datagram begins with a
header carrying sequence i mod 2^16, a non-empty buffer begins with a
header carrying the current seq, and used = 0 exactly when the buffer is
empty. -/
def header_inv (key : ℕ) (st : UdpConn) : Prop :=
  st.key = key ∧
  st.seq = st.sent.length % 65536 ∧
  (∀ i d, st.sent[i]? = some d →
    ∃ ts, d.head? = some (Submessage.header key (i % 65536) ts)) ∧
  (st.buf ≠ [] → ∃ ts, st.buf.head? = some (Submessage.header key st.seq ts)) ∧
  (st.used = 0 ↔ st.buf = [])

/-- The combined reachability invariant used for claims about the UDP
transport. -/
def udp_inv (key : ℕ) (st : UdpConn) : Prop :=
  conn_ok st = true ∧ header_inv key st

/-- Sync pair whose spacing is exactly 0xFFFFFFF0 (the widest spacing that
still avoids ABS_SYNC). -/
def emC1 : UdpMessage := ⟨0xFFFFFFF0, 14⟩

/-- The odd half of the pair, at timestamp 0. -/
def omC1 : UdpMessage := ⟨0, 14⟩

/-- A tracked aircraft with three messages, used by the C4 witness. -/
def acW4 : Aircraft := { Aircraft.init 5 with messages := 3 }

/-- A connection with one open datagram (header only), used by the C10
witness. -/
def stW10 : UdpConn :=
  { key := 1, base_timestamp := some 10, buf := [Submessage.header 1 0 10],
    used := 14, seq := 0, sent := [] }

/-- A tracked aircraft that has seen only one message so far. -/
def acC2 : Aircraft := { Aircraft.init 0xABCDEF with messages := 1 }

/-- A valid even-CPR DF17 position message with altitude and nuc 7. -/
def msgC2 : ModesMessage :=
  { df := 17, address := 0xABCDEF, timestamp := 1000, even_cpr := true,
    odd_cpr := false, valid := true, nuc := 7, altitude := some 30000 }

/-- Reference even/odd pair partner used by the C2 witness. -/
def omW2 : ModesMessage :=
  { df := 17, address := 0xA, timestamp := 1000, even_cpr := false,
    odd_cpr := true, valid := true, nuc := 7, altitude := some 31000 }

/-- Even message used by the C2 witness. -/
def msgW2 : ModesMessage :=
  { df := 17, address := 0xA, timestamp := 2000, even_cpr := true,
    odd_cpr := false, valid := true, nuc := 7, altitude := some 30000 }

/-- Tracked aircraft used by the C2 witness: nine messages so far, odd
reference already stored, requested. -/
def acW2 : Aircraft := { Aircraft.init 0xA with messages := 9, odd_message := some omW2 }

/-- A tracked, requested aircraft with 20 messages and no recent ADS-B
position. -/
def acC3 : Aircraft := { Aircraft.init 0xABCDEF with messages := 20 }

/-- A DF17 non-position message (neither CPR flag). -/
def msgC3 : ModesMessage :=
  { df := 17, address := 0xABCDEF, timestamp := 500, even_cpr := false,
    odd_cpr := false, valid := true, nuc := 0, altitude := none }

/-- A DF4 message for the C3 witness. -/
def msgW3 : ModesMessage :=
  { df := 4, address := 0xABCDEF, timestamp := 700, even_cpr := false,
    odd_cpr := false, valid := true, nuc := 0, altitude := some 35000 }

end MlatClient

namespace MlatClient

lemma flush_queue_foldl (now : ℚ) (msgs : List QueuedMsg) :
    ∀ acc : List QueuedMsg × ℕ,
      msgs.foldl
        (fun acc m => if now - m.t < 1 then (acc.1 ++ [m], acc.2) else (acc.1, acc.2 + 1))
        acc =
      (acc.1 ++ msgs.filter (fun m => now - m.t < 1),
       acc.2 + (msgs.filter (fun m => ¬(now - m.t < 1))).length) := by
  induction msgs with
  | nil => intro acc; simp
  | cons m rest ih =>
    intro acc
    by_cases h : now - m.t < 1
    · simp [List.foldl_cons, h, ih, List.filter_cons, List.append_assoc]
    · simp only [List.foldl_cons, if_neg h, ih, List.filter_cons]
      simp [h]
      omega

/-- C8 counterexample: the claim states CPR_NL(89.9999) = 2, but the code
returns 1 (bisect_left lands past the 87.0 row, on the 90.0 row). -/
theorem claim8_counterexample : ¬(CPR_NL 89.9999 = some 2) := by
  norm_num [CPR_NL, bisect_left, nl_lats, nl_vals, nl_table, List.takeWhile]

/-- C8 (amended): the longitude-zone lookup satisfies CPR_NL(89.9999) = 1,
CPR_NL(90) = 1 and CPR_NL(10.47047130) = 59. -/
theorem claim8_amended :
    CPR_NL 89.9999 = some 1 ∧ CPR_NL 90 = some 1 ∧ CPR_NL 10.47047130 = some 59 := by
  refine ⟨?_, ?_, ?_⟩ <;>
    norm_num [CPR_NL, bisect_left, nl_lats, nl_vals, nl_table, List.takeWhile]

/-- C9 counterexample: the claim states encode_velocity(2000, supersonic) =
502, but int() truncates, so int(2000/4 + 1.5) = int(501.5) = 501. -/
theorem claim9_counterexample : ¬(encode_velocity (some 2000) true = 502) := by
  norm_num [encode_velocity, pyInt]
  decide

/-- C9 (amended): encode_velocity(None, s) = 0 for either supersonic flag;
encode_velocity(2000, supersonic=True) = 501; and encode_velocity(-1, False)
= 2 | 0x400 (the magnitude 1 becomes int(1 + 1.5) = 2 before the sign bit
is or-ed in). -/
theorem claim9_amended :
    encode_velocity none true = 0 ∧ encode_velocity none false = 0 ∧
    encode_velocity (some 2000) true = 501 ∧
    encode_velocity (some (-1)) false = ((2 : ℕ) ||| 0x400) := by
  refine ⟨rfl, rfl, ?_, ?_⟩ <;> · norm_num [encode_velocity, pyInt]; decide

/-- C7: the SBS branch of detect_data_format compares the 4-byte slice
data[i:i+4] against a byte-string literal whose malformed escapes make it
10 bytes long; the comparison is false for every input and every offset, so
SBS input is never detected — in particular not for a buffer that starts
with the intended DLE/ETX DLE/STX framing 10 03 10 02. -/
theorem claim7_sbs_branch_unreachable :
    (∀ (data : List ℕ) (i : ℕ), sbs_detect_check data i = false) ∧
    sbs_detect_check [0x10, 0x03, 0x10, 0x02, 0x4d, 0x53, 0x47, 0x2c] 0 = false := by
  have h : ∀ (data : List ℕ) (i : ℕ), sbs_detect_check data i = false := by
    intro data i
    rw [sbs_detect_check, beq_eq_false_iff_ne]
    intro hcontra
    have hlen := congrArg List.length hcontra
    simp only [List.length_take, sbs_literal, List.length_cons, List.length_nil] at hlen
    omega
  exact ⟨h, h _ _⟩

/-- C5 (confirmed): at each flush of the outbound queue, the lines sent are
exactly the queued lines younger than 1.0 s, in production order; every
line more than 1.0 s old at flush time is not among them and is counted in
the dropped total. -/
theorem claim5_queue_age_drop :
    ∀ (now : ℚ) (msgs : List QueuedMsg),
      (flush_queue now msgs).1 = msgs.filter (fun m => now - m.t < 1) ∧
      (flush_queue now msgs).2 = (msgs.filter (fun m => ¬(now - m.t < 1))).length ∧
      (∀ m ∈ msgs, 1 < now - m.t → m ∉ (flush_queue now msgs).1) := by
  intro now msgs
  have key := flush_queue_foldl now msgs ([], 0)
  rw [flush_queue]
  refine ⟨by rw [key]; simp, by rw [key]; simp, ?_⟩
  intro m _ hold hmem
  rw [key] at hmem
  simp only [List.nil_append, List.mem_filter, decide_eq_true_eq] at hmem
  linarith [hmem.2]

/-- C5 witness: a queue with one stale line (2 s old) and one fresh line;
the stale line is not sent. -/
theorem claim5_queue_age_drop_witness :
    QueuedMsg.mk 8 "stale" ∉ (flush_queue 10 [⟨8, "stale"⟩, ⟨9.5, "fresh"⟩]).1 :=
  (claim5_queue_age_drop 10 [⟨8, "stale"⟩, ⟨9.5, "fresh"⟩]).2.2
    ⟨8, "stale"⟩ (by simp) (by norm_num)

/-- C6: the RADARCAPE_POSITION handler never forwards a position_update.
Its guard misspells the longitude range check as lon <= -180, so for any
event with lon > -180 (every in-range longitude except exactly -180) the
handler does nothing — e.g. lat 50, lon 10, alt 100 — and in the single
remaining case lon = -180 the call itself raises TypeError (five arguments
to the four-parameter send_position_update). -/
theorem claim6_radarcape_position_dropped :
    received_radarcape_position_event 50 10 100 = some [] ∧
    (∀ lat lon alt : ℚ, -180 < lon →
      received_radarcape_position_event lat lon alt = some []) := by
  have h : ∀ lat lon alt : ℚ, -180 < lon →
      received_radarcape_position_event lat lon alt = some [] := by
    intro lat lon alt hlon
    rw [received_radarcape_position_event, if_neg]
    intro hguard
    linarith [hguard.2.2.2]
  exact ⟨h 50 10 100 (by norm_num), h⟩

/-- C6 witness: the generalized part applied at the failing input. -/
theorem claim6_radarcape_position_dropped_witness :
    received_radarcape_position_event 45 (-179) 20 = some [] :=
  claim6_radarcape_position_dropped.2 45 (-179) 20 (by norm_num)

/-- C2 counterexample: a DF17 message for an already-tracked aircraft that
is valid, has even_cpr, nuc 7 and an altitude, yet the handler does not
update even_message (the aircraft has fewer than 10 messages, so the
handler returns before the CPR bookkeeping). -/
theorem claim2_counterexample :
    msgC2.even_cpr = true ∧ msgC2.valid = true ∧ 6 ≤ msgC2.nuc ∧
    msgC2.altitude ≠ none ∧
    ((received_df17 false 12000000 [] (some acC2) msgC2 100).aircraft.map
      Aircraft.even_message) = some none ∧
    (received_df17 false 12000000 [] (some acC2) msgC2 100).calls = [] := by
  refine ⟨rfl, rfl, by norm_num [msgC2], by simp [msgC2], ?_, ?_⟩ <;>
    simp [received_df17, df17_track, acC2, msgC2, Aircraft.init]

/-- df17_send leaves even_message, odd_message and requested unchanged on
the returned aircraft, which always exists. -/
lemma df17_send_aircraft (split_sync : Bool) (freq : ℚ) (ac2 : Aircraft)
    (message : ModesMessage) (now : ℚ) :
    ∃ a, (df17_send split_sync freq ac2 message now).aircraft = some a ∧
      a.even_message = ac2.even_message ∧ a.odd_message = ac2.odd_message ∧
      a.requested = ac2.requested := by
  unfold df17_send
  cases hem : ac2.even_message with
  | none => exact ⟨ac2, rfl, hem, rfl, rfl⟩
  | some em =>
    cases hom : ac2.odd_message with
    | none => exact ⟨ac2, rfl, hem, hom, rfl⟩
    | some om =>
      by_cases h1 : |(em.timestamp : ℚ) - (om.timestamp : ℚ)| > 5 * freq
      · simp only [if_pos h1]; exact ⟨ac2, rfl, hem, hom, rfl⟩
      · simp only [if_neg h1]
        by_cases h2 : message.altitude = none
        · simp only [if_pos h2]; exact ⟨ac2, rfl, hem, hom, rfl⟩
        · simp only [if_neg h2]
          by_cases h3 : message.nuc < 6
          · simp only [if_pos h3]; exact ⟨ac2, rfl, hem, hom, rfl⟩
          · simp only [if_neg h3]
            cases hcpr : message.even_cpr <;>
              by_cases h4 : ac2.requested = true <;>
              cases hsp : split_sync <;>
              simp [hcpr, h4, hem, hom]

/-- The calls df17_send makes when both reference messages are present,
close enough in time, and the message passes the altitude and nuc checks
for a requested aircraft. -/
lemma df17_send_calls (split_sync : Bool) (freq : ℚ) (ac2 : Aircraft)
    (message : ModesMessage) (now : ℚ) (em om : ModesMessage) :
    ac2.even_message = some em → ac2.odd_message = some om →
    |(em.timestamp : ℚ) - (om.timestamp : ℚ)| ≤ 5 * freq →
    message.altitude ≠ none → 6 ≤ message.nuc → ac2.requested = true →
    (df17_send split_sync freq ac2 message now).calls =
      if split_sync then [ServerCall.send_split_sync message]
      else [ServerCall.send_sync em om] := by
  intro hem hom hle halt hnuc hreq
  unfold df17_send
  rw [hem, hom]
  simp only [if_neg (not_lt.mpr hle), if_neg halt, if_neg (by omega : ¬message.nuc < 6)]
  cases hcpr : message.even_cpr <;> cases hsp : split_sync <;> simp [hreq]

/-- df17_store stores the message on the even side when even_cpr, on the
odd side when not, and touches nothing else that claim C2 reads. -/
lemma df17_store_fields (ac1 : Aircraft) (message : ModesMessage) :
    ((df17_store ac1 message).requested = ac1.requested) ∧
    (message.even_cpr = true → (df17_store ac1 message).even_message = some message) ∧
    (message.even_cpr = false → (df17_store ac1 message).odd_message = some message) := by
  unfold df17_store
  cases h : message.even_cpr <;> simp

/-- C2 (amended): for a DF17 message received for an already-tracked
aircraft whose message count after this message is at least 10: if the
message is valid and carries even or odd CPR, the handler stores it as
even_message/odd_message on the returned aircraft; and whenever that
aircraft then holds both an even and an odd message within 5 seconds of
receiver clock, the message has an altitude, nuc is at least 6 and the
aircraft is requested, the handler calls send_split_sync(message) when
split sync was negotiated, else send_sync(even_message, odd_message). -/
theorem claim2_amended :
    ∀ (split_sync : Bool) (freq : ℚ) (rt : List ℕ) (ac : Aircraft)
      (message : ModesMessage) (now : ℚ),
      10 ≤ ac.messages + 1 →
      message.valid = true →
      (message.even_cpr = true ∨ message.odd_cpr = true) →
      ∃ ac', (received_df17 split_sync freq rt (some ac) message now).aircraft = some ac' ∧
        (message.even_cpr = true → ac'.even_message = some message) ∧
        (message.even_cpr = false → ac'.odd_message = some message) ∧
        (∀ em om, ac'.even_message = some em → ac'.odd_message = some om →
          |(em.timestamp : ℚ) - (om.timestamp : ℚ)| ≤ 5 * freq →
          message.altitude ≠ none → 6 ≤ message.nuc → ac.requested = true →
          (received_df17 split_sync freq rt (some ac) message now).calls =
            if split_sync then [ServerCall.send_split_sync message]
            else [ServerCall.send_sync em om]) := by
  intro split_sync freq rt ac message now h10 hvalid hcpr
  have c1 : ¬((df17_track ac now).messages < 10) := by
    simp only [df17_track]
    omega
  have c2 : ¬(¬message.even_cpr = true ∧ ¬message.odd_cpr = true) := by
    rcases hcpr with h | h <;> simp [h]
  have c3 : ¬(¬message.valid = true) := by simp [hvalid]
  have hr : received_df17 split_sync freq rt (some ac) message now =
      df17_send split_sync freq (df17_store (df17_track ac now) message) message now := by
    simp only [received_df17]
    rw [if_neg c1, if_neg c2, if_neg c3]
  obtain ⟨a, ha, haev, haodd, hareq⟩ :=
    df17_send_aircraft split_sync freq (df17_store (df17_track ac now) message) message now
  obtain ⟨hsreq, hsev, hsodd⟩ := df17_store_fields (df17_track ac now) message
  refine ⟨a, hr ▸ ha, ?_, ?_, ?_⟩
  · intro h; rw [haev]; exact hsev h
  · intro h; rw [haodd]; exact hsodd h
  · intro em om hem hom hle halt hnuc hreq
    rw [hr]
    refine df17_send_calls split_sync freq _ message now em om ?_ ?_ hle halt hnuc ?_
    · rw [← haev]; exact hem
    · rw [← haodd]; exact hom
    · rw [hsreq]
      simpa [df17_track] using hreq

/-- C2 witness: the amended claim applied to a concrete tenth DF17 even
message completing a close pair on a requested aircraft. -/
theorem claim2_amended_witness :
    ∃ ac', (received_df17 true 12000000 [] (some acW2) msgW2 100).aircraft = some ac' ∧
      (msgW2.even_cpr = true → ac'.even_message = some msgW2) ∧
      (msgW2.even_cpr = false → ac'.odd_message = some msgW2) ∧
      (∀ em om, ac'.even_message = some em → ac'.odd_message = some om →
        |(em.timestamp : ℚ) - (om.timestamp : ℚ)| ≤ 5 * 12000000 →
        msgW2.altitude ≠ none → 6 ≤ msgW2.nuc → acW2.requested = true →
        (received_df17 true 12000000 [] (some acW2) msgW2 100).calls =
          if true then [ServerCall.send_split_sync msgW2]
          else [ServerCall.send_sync em om]) :=
  claim2_amended true 12000000 [] acW2 msgW2 100 (by decide) rfl (Or.inl rfl)

/-- C3 counterexample: df 17 is in the claim's set, the aircraft is
tracked with at least 10 messages, requested, and adsb_good is false, yet
the coordinator makes no send_mlat call for the message (received_df17
never sends MLAT traffic). -/
theorem claim3_counterexample :
    msgC3.df = 17 ∧ 10 ≤ acC3.messages ∧ acC3.requested = true ∧
    acC3.adsb_good = false ∧
    (handle_df false 12000000 [] (some acC3) msgC3 40).map HandlerResult.calls =
      some [] := by
  refine ⟨rfl, by decide, rfl, rfl, ?_⟩
  simp [handle_df, received_df17, df17_track, acC3, msgC3, Aircraft.init]

/-- The shared body of received_df_misc and received_df11 for a known
aircraft with enough messages: sends MLAT iff adsb_good is false. -/
lemma misc_body_calls (ac : Aircraft) (message : ModesMessage) (now : ℚ) :
    10 ≤ ac.messages → ac.requested = true →
    (ac.adsb_good = false →
      (received_df_misc (some ac) message now).calls = [ServerCall.send_mlat message]) ∧
    (ac.adsb_good = true →
      ServerCall.send_mlat message ∉ (received_df_misc (some ac) message now).calls) := by
  intro h10 hreq
  have c1 : ¬(ac.messages + 1 < 10) := by omega
  constructor
  · intro hg
    simp [received_df_misc, c1, hreq, hg]
  · intro hg
    simp [received_df_misc, c1, hreq, hg]

/-- Same fact for received_df11 (its known-aircraft branch repeats the
received_df_misc body). -/
lemma df11_body_calls (rt : List ℕ) (ac : Aircraft) (message : ModesMessage) (now : ℚ) :
    10 ≤ ac.messages → ac.requested = true →
    (ac.adsb_good = false →
      (received_df11 rt (some ac) message now).calls = [ServerCall.send_mlat message]) ∧
    (ac.adsb_good = true →
      ServerCall.send_mlat message ∉ (received_df11 rt (some ac) message now).calls) := by
  intro h10 hreq
  have c1 : ¬(ac.messages + 1 < 10) := by omega
  constructor
  · intro hg
    simp [received_df11, c1, hreq, hg]
  · intro hg
    simp [received_df11, c1, hreq, hg]

/-- C3 (amended): for every received message whose df is in
{0,4,5,11,16,20,21} (the formats routed to received_df_misc or
received_df11; DF17 traffic goes to the sync path instead) addressed to a
tracked aircraft with at least 10 messages and requested: if adsb_good is
false the coordinator calls server.send_mlat(message), and if adsb_good is
true it does not. -/
theorem claim3_amended :
    ∀ (split_sync : Bool) (freq : ℚ) (rt : List ℕ) (ac : Aircraft)
      (message : ModesMessage) (now : ℚ),
      (message.df = 0 ∨ message.df = 4 ∨ message.df = 5 ∨ message.df = 11 ∨
       message.df = 16 ∨ message.df = 20 ∨ message.df = 21) →
      10 ≤ ac.messages → ac.requested = true →
      ∃ r, handle_df split_sync freq rt (some ac) message now = some r ∧
        (ac.adsb_good = false → r.calls = [ServerCall.send_mlat message]) ∧
        (ac.adsb_good = true → ServerCall.send_mlat message ∉ r.calls) := by
  intro split_sync freq rt ac message now hdf h10 hreq
  rcases hdf with h | h | h | h | h | h | h
  case inr.inr.inr.inl =>
    refine ⟨received_df11 rt (some ac) message now, by simp [handle_df, h], ?_⟩
    exact df11_body_calls rt ac message now h10 hreq
  all_goals
    refine ⟨received_df_misc (some ac) message now, by simp [handle_df, h], ?_⟩
  all_goals
    exact misc_body_calls ac message now h10 hreq

/-- C3 witness: the amended claim applied to a DF4 message for acC3. -/
theorem claim3_amended_witness :
    ∃ r, handle_df false 12000000 [] (some acC3) msgW3 41 = some r ∧
      (acC3.adsb_good = false → r.calls = [ServerCall.send_mlat msgW3]) ∧
      (acC3.adsb_good = true → ServerCall.send_mlat msgW3 ∉ r.calls) :=
  claim3_amended false 12000000 [] acC3 msgW3 41 (Or.inr (Or.inl rfl)) (by decide) rfl

/-- C4 (confirmed): send_aircraft_report announces as seen exactly the
tracked aircraft with more than one message that were not already
reported, announces as lost exactly the reported addresses no longer
backed by such an aircraft, replaces the reported set with the current
set, and any address announced as seen belongs to an aircraft with more
than one message. -/
theorem claim4_aircraft_report :
    ∀ (aircraft : List Aircraft) (reported : Finset ℕ),
      seen_set (send_aircraft_report aircraft reported).2 =
        ((aircraft.filter (fun a => 1 < a.messages)).map Aircraft.icao).toFinset \ reported ∧
      lost_set (send_aircraft_report aircraft reported).2 =
        reported \ ((aircraft.filter (fun a => 1 < a.messages)).map Aircraft.icao).toFinset ∧
      (send_aircraft_report aircraft reported).1 =
        ((aircraft.filter (fun a => 1 < a.messages)).map Aircraft.icao).toFinset ∧
      (∀ i ∈ seen_set (send_aircraft_report aircraft reported).2,
        ∃ a, a ∈ aircraft ∧ a.icao = i ∧ 1 < a.messages) := by
  intro aircraft reported
  set all := ((aircraft.filter (fun a => 1 < a.messages)).map Aircraft.icao).toFinset with hall
  have hmem : ∀ i ∈ all \ reported, ∃ a, a ∈ aircraft ∧ a.icao = i ∧ 1 < a.messages := by
    intro i hi
    have hi2 : i ∈ all := (Finset.mem_sdiff.mp hi).1
    rw [hall, List.mem_toFinset, List.mem_map] at hi2
    obtain ⟨a, ha, haeq⟩ := hi2
    rw [List.mem_filter] at ha
    exact ⟨a, ha.1, haeq, by simpa using ha.2⟩
  have h2 : (send_aircraft_report aircraft reported).2 =
      (if all \ reported ≠ ∅ then [ServerCall.send_seen (all \ reported)] else []) ++
      (if reported \ all ≠ ∅ then [ServerCall.send_lost (reported \ all)] else []) := rfl
  have h1 : seen_set (send_aircraft_report aircraft reported).2 = all \ reported := by
    rw [h2]
    by_cases hseen : all \ reported = ∅ <;> by_cases hlost : reported \ all = ∅ <;>
      simp [hseen, hlost, seen_set]
  have h1l : lost_set (send_aircraft_report aircraft reported).2 = reported \ all := by
    rw [h2]
    by_cases hseen : all \ reported = ∅ <;> by_cases hlost : reported \ all = ∅ <;>
      simp [hseen, hlost, lost_set]
  exact ⟨h1, h1l, rfl, fun i hi => hmem i (h1 ▸ hi)⟩

/-- Midpoint rebase bound: when the pair spacing is at most 0xFFFFFFF0,
each timestamp is within 0x7FFFFFF8 of the floor midpoint. -/
lemma mid_delta_bound (a b : ℕ) (h : |(a : ℤ) - (b : ℤ)| ≤ 0xFFFFFFF0) :
    |(a : ℤ) - (((a + b) / 2 : ℕ) : ℤ)| ≤ 0x7FFFFFF8 ∧
    |(b : ℤ) - (((a + b) / 2 : ℕ) : ℤ)| ≤ 0x7FFFFFF8 := by
  rw [abs_le] at h
  constructor <;> rw [abs_le] <;> constructor <;> omega

/-- Appending to a non-empty list keeps its head. -/
lemma buf_head_append (l : List Submessage) (x : Submessage) (h : l ≠ []) :
    (l ++ [x]).head? = l.head? := by
  cases l with
  | nil => exact absurd rfl h
  | cons a rest => rfl

/-- Appending one bound-respecting submessage (possibly together with a
base_timestamp change) preserves the UDP invariant. -/
lemma inv_append (key : ℕ) (st : UdpConn) (b : Option ℕ) (x : Submessage) (n : ℕ)
    (hinv : udp_inv key st) (hx : delta_ok x = true) (hbuf : st.buf ≠ [])
    (hn : 0 < n) :
    udp_inv key { st with base_timestamp := b, buf := st.buf ++ [x],
                          used := st.used + n } := by
  obtain ⟨hc, hkey, hseq, hget, hhead, hused⟩ := hinv
  rw [conn_ok, Bool.and_eq_true] at hc
  refine ⟨?_, hkey, hseq, hget, ?_, ?_⟩
  · rw [conn_ok, Bool.and_eq_true]
    exact ⟨hc.1, by simp only [List.all_append, hc.2, List.all_cons, List.all_nil,
      hx, Bool.and_self]⟩
  · intro _
    obtain ⟨ts, hts⟩ := hhead hbuf
    exact ⟨ts, by rw [buf_head_append st.buf x hbuf]; exact hts⟩
  · have hne : st.used + n ≠ 0 := by omega
    constructor
    · intro hh
      exact absurd hh hne
    · intro hh
      exact absurd hh (by simp)

/-- prepare_header on an empty buffer establishes the invariant for the
new buffer and makes it non-empty with the written base. -/
lemma inv_prepare (key : ℕ) (st : UdpConn) (ts : ℕ)
    (hinv : udp_inv key st) (h0 : st.used = 0) :
    udp_inv key (st.prepare_header ts) ∧ (st.prepare_header ts).buf ≠ [] ∧
    (st.prepare_header ts).base_timestamp = some ts ∧
    (st.prepare_header ts).used ≠ 0 := by
  obtain ⟨hc, hkey, hseq, hget, hhead, hused⟩ := hinv
  have hbe : st.buf = [] := hused.mp h0
  rw [conn_ok, Bool.and_eq_true] at hc
  refine ⟨⟨?_, hkey, hseq, hget, ?_, ?_⟩, ?_, rfl, ?_⟩
  · rw [conn_ok, Bool.and_eq_true]
    refine ⟨hc.1, ?_⟩
    simp [UdpConn.prepare_header, hbe, delta_ok]
  · intro _
    refine ⟨ts, ?_⟩
    simp only [UdpConn.prepare_header, hbe, List.nil_append, List.head?_cons, hkey]
  · simp [UdpConn.prepare_header, STRUCT_HEADER_size, h0, hbe]
  · simp [UdpConn.prepare_header, hbe]
  · simp [UdpConn.prepare_header, STRUCT_HEADER_size, h0]

/-- flush preserves the UDP invariant. -/
lemma inv_flush (key : ℕ) (ok : Bool) (st : UdpConn) (hinv : udp_inv key st) :
    udp_inv key (st.flush ok) := by
  obtain ⟨hc, hkey, hseq, hget, hhead, hused⟩ := hinv
  rw [UdpConn.flush]
  by_cases h0 : st.used = 0
  · rw [if_pos h0]
    exact ⟨hc, hkey, hseq, hget, hhead, hused⟩
  · rw [if_neg h0]
    have hbufne : st.buf ≠ [] := fun hb => h0 (hused.mpr hb)
    rw [conn_ok, Bool.and_eq_true] at hc
    refine ⟨?_, hkey, ?_, ?_, ?_, ?_⟩
    · rw [conn_ok, Bool.and_eq_true]
      constructor
      · simp only [List.all_append, hc.1, List.all_cons, List.all_nil, hc.2,
          Bool.and_self]
      · simp
    · simp only [List.length_append, List.length_singleton]
      omega
    · intro i d hd
      by_cases hi : i < st.sent.length
      · rw [List.getElem?_append_left hi] at hd
        exact hget i d hd
      · have hlen : i < st.sent.length + 1 := by
          have h1 := List.getElem?_eq_some.mp hd
          simpa using h1.1
        have hieq : i = st.sent.length := by omega
        subst hieq
        rw [List.getElem?_append_right (le_refl _), Nat.sub_self] at hd
        simp only [List.getElem?_cons_zero, Option.some.injEq] at hd
        obtain ⟨ts, hts⟩ := hhead hbufne
        refine ⟨ts, ?_⟩
        rw [← hd, ← hseq]
        exact hts
    · intro hne
      exact absurd rfl hne
    · simp

/-- The invariant holds for a fresh connection. -/
lemma init_inv (key : ℕ) : udp_inv key (UdpConn.init key) := by
  refine ⟨rfl, rfl, rfl, ?_, ?_, by simp [UdpConn.init]⟩
  · intro i d hd
    simp [UdpConn.init] at hd
  · intro h
    exact absurd rfl h

/-- flush does not change the submessage stream, it only moves the buffer
into the emitted datagrams. -/
lemma stream_flush (ok : Bool) (st : UdpConn) :
    (st.flush ok).stream = st.stream := by
  rw [UdpConn.flush]
  by_cases h0 : st.used = 0
  · rw [if_pos h0]
  · rw [if_neg h0]
    simp [UdpConn.stream, List.flatten_append]

/-- mlat_pack preserves the invariant when the packed delta is within the
MLAT bound. -/
lemma inv_mlat_pack (key : ℕ) (ok : Bool) (m : UdpMessage) (delta : ℤ)
    (st : UdpConn) (hinv : udp_inv key st) (hbuf : st.buf ≠ [])
    (hd : |delta| ≤ 0x7FFFFFF0) : udp_inv key (st.mlat_pack ok m delta) := by
  simp only [UdpConn.mlat_pack]
  by_cases hlen : m.length = 7
  · rw [if_pos hlen]
    have hA := inv_append key st st.base_timestamp (Submessage.mlat_short delta m)
      STRUCT_MLAT_SHORT_size hinv
      (by simp only [delta_ok, decide_eq_true_eq]; exact hd) hbuf
      (by norm_num [STRUCT_MLAT_SHORT_size])
    split
    · exact inv_flush key ok _ hA
    · exact hA
  · rw [if_neg hlen]
    have hA := inv_append key st st.base_timestamp (Submessage.mlat_long delta m)
      STRUCT_MLAT_LONG_size hinv
      (by simp only [delta_ok, decide_eq_true_eq]; exact hd) hbuf
      (by norm_num [STRUCT_MLAT_LONG_size])
    split
    · exact inv_flush key ok _ hA
    · exact hA

/-- ssync_pack preserves the invariant when the packed delta is within the
bound. -/
lemma inv_ssync_pack (key : ℕ) (ok : Bool) (m : UdpMessage) (delta : ℤ)
    (st : UdpConn) (hinv : udp_inv key st) (hbuf : st.buf ≠ [])
    (hd : |delta| ≤ 0x7FFFFFF0) : udp_inv key (st.ssync_pack ok m delta) := by
  simp only [UdpConn.ssync_pack]
  have hA := inv_append key st st.base_timestamp (Submessage.ssync delta m)
    STRUCT_SSYNC_size hinv
    (by simp only [delta_ok, decide_eq_true_eq]; exact hd) hbuf
    (by norm_num [STRUCT_SSYNC_size])
  split
  · exact inv_flush key ok _ hA
  · exact hA

/-- sync_pack preserves the invariant when both packed deltas are within
the SYNC bound. -/
lemma inv_sync_pack (key : ℕ) (ok : Bool) (em om : UdpMessage)
    (edelta odelta : ℤ) (st : UdpConn) (hinv : udp_inv key st)
    (hbuf : st.buf ≠ []) (hd1 : |edelta| ≤ 0x7FFFFFF8)
    (hd2 : |odelta| ≤ 0x7FFFFFF8) :
    udp_inv key (st.sync_pack ok em om edelta odelta) := by
  simp only [UdpConn.sync_pack]
  have hA := inv_append key st st.base_timestamp
    (Submessage.sync edelta odelta em om) STRUCT_SYNC_size hinv
    (by simp only [delta_ok, decide_eq_true_eq]; exact ⟨hd1, hd2⟩) hbuf
    (by norm_num [STRUCT_SYNC_size])
  split
  · exact inv_flush key ok _ hA
  · exact hA

/-- rebase preserves the invariant and keeps the buffer non-empty. -/
lemma inv_rebase (key : ℕ) (ts : ℕ) (st : UdpConn) (hinv : udp_inv key st)
    (hbuf : st.buf ≠ []) :
    udp_inv key (st.rebase ts) ∧ (st.rebase ts).buf ≠ [] := by
  constructor
  · exact inv_append key st (some ts) (Submessage.rebase ts) STRUCT_REBASE_size
      hinv rfl hbuf (by norm_num [STRUCT_REBASE_size])
  · simp [UdpConn.rebase]

/-- send_mlat preserves the invariant. -/
lemma inv_send_mlat (key : ℕ) (ok : Bool) (m : UdpMessage) (st st2 : UdpConn)
    (hinv : udp_inv key st) (h : st.send_mlat ok m = some st2) :
    udp_inv key st2 := by
  simp only [UdpConn.send_mlat] at h
  set st1 := if st.used = 0 then st.prepare_header m.timestamp else st with hst1
  have h1 : udp_inv key st1 ∧ st1.buf ≠ [] := by
    rw [hst1]
    by_cases h0 : st.used = 0
    · rw [if_pos h0]
      have hp := inv_prepare key st m.timestamp hinv h0
      exact ⟨hp.1, hp.2.1⟩
    · rw [if_neg h0]
      exact ⟨hinv, fun he => h0 (hinv.2.2.2.2.2.mpr he)⟩
  split at h
  · exact absurd h (by simp)
  · split at h
    case isTrue hgt =>
      rw [Option.some.injEq] at h
      subst h
      have hr := inv_rebase key m.timestamp st1 h1.1 h1.2
      exact inv_mlat_pack key ok m 0 _ hr.1 hr.2 (by norm_num)
    case isFalse hle =>
      rw [Option.some.injEq] at h
      subst h
      exact inv_mlat_pack key ok m _ st1 h1.1 h1.2 (not_lt.mp hle)

/-- send_split_sync preserves the invariant. -/
lemma inv_send_split_sync (key : ℕ) (ok : Bool) (m : UdpMessage)
    (st st2 : UdpConn) (hinv : udp_inv key st)
    (h : st.send_split_sync ok m = some st2) : udp_inv key st2 := by
  simp only [UdpConn.send_split_sync] at h
  set st1 := if st.used = 0 then st.prepare_header m.timestamp else st with hst1
  have h1 : udp_inv key st1 ∧ st1.buf ≠ [] := by
    rw [hst1]
    by_cases h0 : st.used = 0
    · rw [if_pos h0]
      have hp := inv_prepare key st m.timestamp hinv h0
      exact ⟨hp.1, hp.2.1⟩
    · rw [if_neg h0]
      exact ⟨hinv, fun he => h0 (hinv.2.2.2.2.2.mpr he)⟩
  split at h
  · exact absurd h (by simp)
  · split at h
    case isTrue hgt =>
      rw [Option.some.injEq] at h
      subst h
      have hr := inv_rebase key m.timestamp st1 h1.1 h1.2
      exact inv_ssync_pack key ok m 0 _ hr.1 hr.2 (by norm_num)
    case isFalse hle =>
      rw [Option.some.injEq] at h
      subst h
      exact inv_ssync_pack key ok m _ st1 h1.1 h1.2 (not_lt.mp hle)

/-- send_sync preserves the invariant. -/
lemma inv_send_sync (key : ℕ) (ok : Bool) (em om : UdpMessage)
    (st st2 : UdpConn) (hinv : udp_inv key st)
    (h : st.send_sync ok em om = some st2) : udp_inv key st2 := by
  simp only [UdpConn.send_sync] at h
  set st1 := if st.used = 0 then
      st.prepare_header ((em.timestamp + om.timestamp) / 2) else st with hst1
  have h1 : udp_inv key st1 ∧ st1.buf ≠ [] := by
    rw [hst1]
    by_cases h0 : st.used = 0
    · rw [if_pos h0]
      have hp := inv_prepare key st ((em.timestamp + om.timestamp) / 2) hinv h0
      exact ⟨hp.1, hp.2.1⟩
    · rw [if_neg h0]
      exact ⟨hinv, fun he => h0 (hinv.2.2.2.2.2.mpr he)⟩
  split at h
  case isTrue habs =>
    rw [Option.some.injEq] at h
    subst h
    have hA := inv_append key st1 st1.base_timestamp
      (Submessage.abs_sync em.timestamp om.timestamp em om)
      STRUCT_ABS_SYNC_size h1.1 rfl h1.2 (by norm_num [STRUCT_ABS_SYNC_size])
    split
    · exact inv_flush key ok _ hA
    · exact hA
  case isFalse habs =>
    split at h
    · exact absurd h (by simp)
    · split at h
      case isTrue hgt =>
        rw [Option.some.injEq] at h
        subst h
        have hr := inv_rebase key ((em.timestamp + om.timestamp) / 2) st1 h1.1 h1.2
        have hmid := mid_delta_bound em.timestamp om.timestamp (not_lt.mp habs)
        exact inv_sync_pack key ok em om _ _ _ hr.1 hr.2 hmid.1 hmid.2
      case isFalse hle =>
        rw [Option.some.injEq] at h
        subst h
        rw [not_or] at hle
        refine inv_sync_pack key ok em om _ _ st1 h1.1 h1.2 ?_ ?_
        · exact le_trans (not_lt.mp hle.1) (by norm_num)
        · exact le_trans (not_lt.mp hle.2) (by norm_num)

/-- One step preserves the invariant. -/
lemma inv_step (key : ℕ) (st : UdpConn) (op : UdpOp) (st2 : UdpConn)
    (hinv : udp_inv key st) (h : st.step op = some st2) : udp_inv key st2 := by
  cases op with
  | mlat ok m => exact inv_send_mlat key ok m st st2 hinv h
  | sync ok em om => exact inv_send_sync key ok em om st st2 hinv h
  | ssync ok m => exact inv_send_split_sync key ok m st st2 hinv h
  | flush ok =>
    rw [UdpConn.step, Option.some.injEq] at h
    subst h
    exact inv_flush key ok st hinv

/-- Any run from an invariant state ends in an invariant state. -/
lemma inv_runAux (key : ℕ) : ∀ (ops : List UdpOp) (st st2 : UdpConn),
    udp_inv key st → st.runAux ops = some st2 → udp_inv key st2 := by
  intro ops
  induction ops with
  | nil =>
    intro st st2 hinv h
    rw [UdpConn.runAux, Option.some.injEq] at h
    subst h
    exact hinv
  | cons op rest ih =>
    intro st st2 hinv h
    rw [UdpConn.runAux] at h
    cases hstep : st.step op with
    | none => rw [hstep] at h; exact absurd h (by simp)
    | some stm =>
      rw [hstep] at h
      exact ih stm st2 (inv_step key st op stm hinv hstep) h

/-- C4 witness: the report consequence applied to one concrete aircraft
with three messages and an empty reported set. -/
theorem claim4_aircraft_report_witness :
    ∃ a, a ∈ [acW4] ∧ a.icao = 5 ∧ 1 < a.messages :=
  (claim4_aircraft_report [acW4] ∅).2.2.2 5 (by decide)

/-- C1 counterexample: a sync pair spaced exactly 0xFFFFFFF0 apart (so the
ABS_SYNC exemption does not apply) is sent on a fresh connection and
flushed; the emitted datagram contains a SYNC submessage whose even delta
is 0x7FFFFFF8, above the claimed bound 0x7FFFFFF0: after the midpoint
rebase each delta is half the pair spacing, which exceeds the bound by 8.
-/
theorem claim1_counterexample :
    |(emC1.timestamp : ℤ) - (omC1.timestamp : ℤ)| ≤ 0xFFFFFFF0 ∧
    Submessage.sync 0x7FFFFFF8 (-0x7FFFFFF8) emC1 omC1 ∈
      ((run 0 [UdpOp.sync true emC1 omC1, UdpOp.flush true]).getD
        (UdpConn.init 0)).sent.flatten ∧
    ¬(|(0x7FFFFFF8 : ℤ)| ≤ 0x7FFFFFF0) := by
  refine ⟨by decide, by decide, by decide⟩

/-- C1 (amended): on every reachable connection state, every SYNC
submessage of every emitted datagram and of the open buffer has both
deltas within 0x7FFFFFF8, and every MLAT_SHORT, MLAT_LONG and SSYNC
submessage has its delta within 0x7FFFFFF0 (send_mlat and send_split_sync
emit a REBASE and reset the base first when the bound would be exceeded);
and send_sync emits an ABS_SYNC submessage carrying the absolute
timestamps whenever the pair spacing exceeds 0xFFFFFFF0, preceded only by
a possible datagram header. -/
theorem claim1_amended :
    (∀ (key : ℕ) (ops : List UdpOp) (st2 : UdpConn),
      run key ops = some st2 → conn_ok st2 = true) ∧
    (∀ (ok : Bool) (em om : UdpMessage) (st st2 : UdpConn),
      st.send_sync ok em om = some st2 →
      0xFFFFFFF0 < |(em.timestamp : ℤ) - (om.timestamp : ℤ)| →
      ∃ pre, st2.stream = st.stream ++ pre ++
          [Submessage.abs_sync em.timestamp om.timestamp em om] ∧
        ∀ x ∈ pre, ∃ k sq b, x = Submessage.header k sq b) := by
  constructor
  · intro key ops st2 h
    rw [run] at h
    exact (inv_runAux key ops _ st2 (init_inv key) h).1
  · intro ok em om st st2 h hgt
    simp only [UdpConn.send_sync] at h
    set st1 := if st.used = 0 then
        st.prepare_header ((em.timestamp + om.timestamp) / 2) else st with hst1
    obtain ⟨pre, hpre, hhdr⟩ : ∃ pre, st1.stream = st.stream ++ pre ∧
        ∀ x ∈ pre, ∃ k sq b, x = Submessage.header k sq b := by
      rw [hst1]
      by_cases h0 : st.used = 0
      · rw [if_pos h0]
        refine ⟨[Submessage.header st.key st.seq
          ((em.timestamp + om.timestamp) / 2)], ?_, ?_⟩
        · simp [UdpConn.stream, UdpConn.prepare_header]
        · intro x hx
          simp only [List.mem_singleton] at hx
          subst hx
          exact ⟨st.key, st.seq, _, rfl⟩
      · rw [if_neg h0]
        exact ⟨[], by simp, by simp⟩
    rw [if_pos hgt, Option.some.injEq] at h
    subst h
    refine ⟨pre, ?_, hhdr⟩
    have hA : ({ st1 with
        buf := st1.buf ++ [Submessage.abs_sync em.timestamp om.timestamp em om],
        used := st1.used + STRUCT_ABS_SYNC_size } : UdpConn).stream =
        st1.stream ++ [Submessage.abs_sync em.timestamp om.timestamp em om] := by
      simp [UdpConn.stream]
    split
    · rw [stream_flush, hA, hpre]
    · rw [hA, hpre]

/-- C1 witness: both parts applied at concrete inputs — an MLAT message on
a fresh connection keeps every delta in bounds, and a sync pair spaced
2^33 apart produces an ABS_SYNC. -/
theorem claim1_amended_witness :
    (∃ st2, run 0 [UdpOp.mlat true ⟨1000, 7⟩] = some st2 ∧ conn_ok st2 = true) ∧
    (∃ st2, (UdpConn.init 3).send_sync true ⟨0x200000000, 14⟩ ⟨0, 14⟩ = some st2 ∧
      ∃ pre, st2.stream = (UdpConn.init 3).stream ++ pre ++
          [Submessage.abs_sync 0x200000000 0 ⟨0x200000000, 14⟩ ⟨0, 14⟩] ∧
        ∀ x ∈ pre, ∃ k sq b, x = Submessage.header k sq b) := by
  constructor
  · exact ⟨_, rfl, claim1_amended.1 0 [UdpOp.mlat true ⟨1000, 7⟩] _ rfl⟩
  · exact ⟨_, rfl, claim1_amended.2 true ⟨0x200000000, 14⟩ ⟨0, 14⟩
      (UdpConn.init 3) _ rfl (by decide)⟩

/-- C10 (confirmed): flush is a no-op on an empty buffer; on a non-empty
buffer it always (the socket outcome does not matter: socket.error is
swallowed) empties the buffer, clears base_timestamp, emits the datagram
and advances seq by one mod 2^16; consequently on any reachable state the
i-th emitted datagram begins with a header whose sequence number is
i mod 2^16 — emitted datagrams carry consecutive 16-bit sequence numbers
and each begins with a freshly written header. -/
theorem claim10_flush :
    (∀ (ok : Bool) (st : UdpConn), st.used = 0 → st.flush ok = st) ∧
    (∀ (ok : Bool) (st : UdpConn), st.used ≠ 0 →
      (st.flush ok).used = 0 ∧ (st.flush ok).base_timestamp = none ∧
      (st.flush ok).seq = (st.seq + 1) % 65536 ∧
      (st.flush ok).sent = st.sent ++ [st.buf]) ∧
    (∀ (key : ℕ) (ops : List UdpOp) (st2 : UdpConn),
      run key ops = some st2 →
      ∀ i d, st2.sent[i]? = some d →
        ∃ ts, d.head? = some (Submessage.header key (i % 65536) ts)) := by
  refine ⟨?_, ?_, ?_⟩
  · intro ok st h0
    rw [UdpConn.flush, if_pos h0]
  · intro ok st h0
    rw [UdpConn.flush, if_neg h0]
    exact ⟨rfl, rfl, rfl, rfl⟩
  · intro key ops st2 h i d hd
    rw [run] at h
    exact (inv_runAux key ops _ st2 (init_inv key) h).2.2.2.1 i d hd

/-- C10 witness: the three parts at concrete inputs — flush on a fresh
connection, flush of a one-header datagram, and the first datagram of a
run beginning with a header carrying sequence 0. -/
theorem claim10_flush_witness :
    (UdpConn.init 5).flush true = UdpConn.init 5 ∧
    ((stW10.flush true).used = 0 ∧ (stW10.flush true).base_timestamp = none ∧
      (stW10.flush true).seq = (stW10.seq + 1) % 65536 ∧
      (stW10.flush true).sent = stW10.sent ++ [stW10.buf]) ∧
    (∃ st2, run 1 [UdpOp.mlat true ⟨42, 7⟩, UdpOp.flush true] = some st2 ∧
      ∃ d, st2.sent[0]? = some d ∧
        ∃ ts, d.head? = some (Submessage.header 1 (0 % 65536) ts)) := by
  refine ⟨claim10_flush.1 true (UdpConn.init 5) rfl,
          claim10_flush.2.1 true stW10 (by decide), ?_⟩
  refine ⟨_, rfl, ?_⟩
  refine ⟨_, rfl, ?_⟩
  exact claim10_flush.2.2 1 [UdpOp.mlat true ⟨42, 7⟩, UdpOp.flush true] _ rfl 0 _ rfl

end MlatClient
